import Mathlib

/-!
Shallow embedding of `src/app.ts` of the arlocal repository: the `ArLocal`
class (constructor, `start`, `startDB`, `stop`), the Koa context it
populates, and the route table it registers.  Stateful code is embedded as
explicit state passing; the filesystem side effects of `startDB`/`stop` are
embedded as effect traces.
-/

namespace ArLocal

/-- The `NetworkInterface` context object built in the constructor
(`this.app.context.network`, app.ts lines 88–101). -/
structure NetworkInterface where
  network : String
  version : Nat
  release : Nat
  queue_length : Nat
  peers : Nat
  node_state_latency : Nat
  blocks : Int
  current : String
  height : Int
  deriving Repr, DecidableEq

/-- The fields of a block row that `ArLocal.start` reads from
`blockDB.getLastBlock()` (`lastBlock.height`, `lastBlock.id`), together with
`previous` and `timestamp` used by the spec-modelled mining step. -/
structure Block where
  id : String
  height : Int
  previous : Option String
  timestamp : Int
  deriving Repr, DecidableEq

/-- The Koa app context fields that the constructor sets
(app.ts lines 103–108): `fails` (as `this.fails / 100`), `timestamp`
(`new Date().getTime()` at construction), `dbPath`, plus the network object. -/
structure AppContext where
  network : NetworkInterface
  dbPath : String
  fails : ℚ
  timestamp : Int
  deriving Repr, DecidableEq

/-- The initial network object the constructor stores: blocks, current and
height are placeholders until `start` runs (app.ts lines 88–101). -/
def initialNetwork : NetworkInterface :=
  { network := "arlocal.N.1"
  , version := 1
  , release := 1
  , queue_length := 0
  , peers := 1
  , node_state_latency := 0
  , blocks := 0
  , current := "block_id"
  , height := -1 }

/-- The expression `port || this.port` with `this.port = 1984`: a JS falsy
(zero) port argument leaves the default (app.ts lines 62, 77). -/
def effectivePort (port : Nat) : Nat :=
  if port = 0 then 1984 else port

/-- The default `path.join(__dirname, '.db', port.toString())` — the database
path is derived from the RAW `port` argument, before the `||` default is
applied (app.ts line 78). -/
def defaultDbPath (dirname : String) (port : Nat) : String :=
  dirname ++ "/.db/" ++ toString port

/-- The assignment `dbPath = dbPath || path.join(...)`: an absent or empty
(JS-falsy) `dbPath` argument falls back to the default (app.ts line 78). -/
def resolvedDbPath (dirname : String) (port : Nat) : Option String → String
  | none => defaultDbPath dirname port
  | some s => if s = "" then defaultDbPath dirname port else s

/-- The mutable fields of the `ArLocal` instance set by the constructor
(app.ts lines 62–110). -/
structure ArLocalState where
  port : Nat
  dbPath : String
  persist : Bool
  fails : ℚ
  context : AppContext
  deriving Repr, DecidableEq

/-- The constructor (app.ts lines 76–110): resolves the port and database
path, stores `fails / 100` in the context, and captures the current time
`now` once as the context timestamp.  It touches no chain state: the network
object is the constant `initialNetwork`. -/
def mkArLocal (dirname : String) (port : Nat) (dbPath : Option String)
    (persist : Bool) (fails : ℚ) (now : Int) : ArLocalState :=
  let dbp := resolvedDbPath dirname port dbPath
  { port := effectivePort port
  , dbPath := dbp
  , persist := persist
  , fails := fails
  , context :=
    { network := initialNetwork
    , dbPath := dbp
    , fails := fails / 100
    , timestamp := now } }

/-- The chain-initialization step of `start()` (app.ts lines 115–127):
given the result of `blockDB.getLastBlock()` and the id that
`blockDB.mineGenesisBlock()` would return, produce the updated network
object and the number of times `mineGenesisBlock` was called. -/
def startNetwork (net : NetworkInterface) (lastBlock : Option Block)
    (genesisId : String) : NetworkInterface × Nat :=
  match lastBlock with
  | some b => ({ net with blocks := b.height + 1, current := b.id, height := b.height }, 0)
  | none => ({ net with blocks := 1, current := genesisId, height := 0 }, 1)

/-- The effect of `start()` on the app context: only the network object changes;
`timestamp`, `fails` and `dbPath` are untouched (app.ts lines 112–216). -/
def startCtx (ctx : AppContext) (lastBlock : Option Block)
    (genesisId : String) : AppContext :=
  { ctx with network := (startNetwork ctx.network lastBlock genesisId).1 }

/-- Modelled from the spec: `blockDB.mineGenesisBlock()` lives in
`src/db/block.ts`, which is not under `src/`.  Per §4.5 it "creates
height-0 block with no transactions, deterministic timestamp from process
start": a height-0 block with no predecessor whose timestamp is the
context's (captured at construction). -/
def mineGenesisBlock (ctx : AppContext) (genesisId : String) : Block :=
  { id := genesisId
  , height := 0
  , previous := none
  , timestamp := ctx.timestamp }

/-- HTTP methods used by the router calls in `start()`. -/
inductive Method
  | get
  | post
  | patch
  | delete
  | head
  deriving Repr, DecidableEq

/-- One router registration: method, path pattern, and the handler name as
imported in app.ts. -/
structure Route where
  method : Method
  pattern : String
  handler : String
  deriving Repr, DecidableEq

/-- The guard `process.env.DISABLE_ADMIN_ROUTES !== 'true'` on every
admin-tagged registration (app.ts lines 129–167). -/
def adminEnabled (env : Option String) : Bool :=
  decide (env ≠ some "true")

/-- The route table `start()` registers, in source order, as a function of
the admin guard's value (app.ts lines 129–183).  The two regex routes from
`routes/data` are named by placeholder patterns. -/
def routesWith (admin : Bool) : List Route :=
  (if admin then [⟨.get, "/logs", "logsRoute"⟩] else []) ++
  [⟨.get, "/", "statusRoute"⟩,
   ⟨.get, "/info", "statusRoute"⟩,
   ⟨.get, "/peers", "peersRoute"⟩] ++
  (if admin then
    [⟨.get, "/reset", "resetRoute"⟩,
     ⟨.get, "/mine/:qty?", "mineRoute"⟩,
     ⟨.get, "/mineWithFails/:qty?", "mineWithFailsRoute"⟩] else []) ++
  [⟨.get, "/tx_anchor", "txAnchorRoute"⟩,
   ⟨.get, "/price/:bytes/:addy?", "priceRoute"⟩,
   ⟨.get, "/tx/pending", "txPendingRoute"⟩,
   ⟨.get, "/tx/:txid/offset", "txOffsetRoute"⟩,
   ⟨.get, "/tx/:txid/status", "txStatusRoute"⟩,
   ⟨.get, "/tx/:txid/data", "txRawDataRoute"⟩,
   ⟨.get, "/tx/:txid/data.:ext", "txDataRoute"⟩,
   ⟨.get, "/tx/:txid/:field", "txFieldRoute"⟩,
   ⟨.get, "/tx/:txid/:file", "txFileRoute"⟩,
   ⟨.get, "/tx/:txid", "txRoute"⟩,
   ⟨.get, "/raw/:txid", "txRawDataRoute"⟩] ++
  (if admin then [⟨.delete, "/tx/:txid", "deleteTxRoute"⟩] else []) ++
  [⟨.post, "/tx", "txPostRoute"⟩,
   ⟨.post, "/chunk", "postChunkRoute"⟩,
   ⟨.get, "/chunk/:offset", "getChunkOffsetRoute"⟩,
   ⟨.get, "/block/hash/:indep_hash", "blocksRoute"⟩,
   ⟨.get, "/block/height/:height", "blocksRouteViaHeight"⟩] ++
  (if admin then
    [⟨.post, "/wallet", "createWalletRoute"⟩,
     ⟨.patch, "/wallet/:address/balance", "updateBalanceRoute"⟩,
     ⟨.get, "/mint/:address/:balance", "addBalanceRoute"⟩] else []) ++
  [⟨.get, "/wallet/:address/balance", "getBalanceRoute"⟩,
   ⟨.get, "/wallet/:address/last_tx", "getLastWalletTxRoute"⟩,
   ⟨.head, "dataRouteRegex", "dataHeadRoute"⟩,
   ⟨.get, "dataRouteRegex", "dataRoute"⟩,
   ⟨.get, "/(.*)", "subDataRoute"⟩,
   ⟨.get, "/:other", "otherRoute"⟩]

/-- The routes `start()` registers under environment `env`. -/
def registerRoutes (env : Option String) : List Route :=
  routesWith (adminEnabled env)

/-- The eight admin-tagged handlers, each registered behind the
`DISABLE_ADMIN_ROUTES` guard. -/
def adminHandlers : List String :=
  ["logsRoute", "resetRoute", "mineRoute", "mineWithFailsRoute",
   "deleteTxRoute", "createWalletRoute", "updateBalanceRoute", "addBalanceRoute"]

/-- The public read handlers named by C6: wallet balance and last_tx reads,
network status, block by hash and by height, chunk by offset, and the
transaction lookups. -/
def publicReadHandlers : List String :=
  ["getBalanceRoute", "getLastWalletTxRoute", "statusRoute",
   "blocksRoute", "blocksRouteViaHeight", "getChunkOffsetRoute",
   "txRoute", "txOffsetRoute", "txStatusRoute", "txRawDataRoute",
   "txDataRoute", "txFieldRoute", "txFileRoute", "txPendingRoute"]

/-- A filesystem side effect performed by `startDB`/`stop`: removing or
creating the database directory. -/
inductive FsEffect
  | removeDir (path : String)
  | makeDir (path : String)
  deriving Repr, DecidableEq

/-- The filesystem effects of `startDB()` (app.ts lines 218–224): when
`persist` is false the database directory is removed (the `rmSync` error on
a missing directory is swallowed), then the directory is recreated when the
`existsSync` check that follows the removal finds nothing. -/
def startDBEffects (persist : Bool) (dbPath : String) (dirExists : Bool) :
    List FsEffect :=
  (if !persist && dirExists then [FsEffect.removeDir dbPath] else []) ++
  (let existsAfter := if !persist then false else dirExists
   if !existsAfter then [FsEffect.makeDir dbPath] else [])

/-- The filesystem effects of the `connection.destroy().then` continuation of
`stop()` (app.ts lines 257–264): remove the database directory unless
`persist` is set (again swallowing the missing-directory error). -/
def stopEffects (persist : Bool) (dbPath : String) (dirExists : Bool) :
    List FsEffect :=
  if !persist && dirExists then [FsEffect.removeDir dbPath] else []

/-- The filesystem effects of the `server.close` error callback of `stop()`
(app.ts lines 243–250): the same `persist`-guarded removal. -/
def stopCloseErrEffects (persist : Bool) (dbPath : String) (dirExists : Bool) :
    List FsEffect :=
  if !persist && dirExists then [FsEffect.removeDir dbPath] else []

/-- The chain state the spec-modelled mining step threads:
`height` and `currentBlockId` (§4.5 of the spec). -/
structure ChainState where
  height : Int
  currentBlockId : String
  deriving Repr, DecidableEq

/-- Modelled from the spec: the single-block mining step of `mine` lives in
`src/db/block.ts` / `routes/mine.ts`, which are not under `src/`.  Per §4.5
it "creates a new Block referencing the accepted transaction ids,
`previous = currentBlockId`, `height = height+1`" and "advances
`currentBlockId`/`height`". -/
def mineStep (s : ChainState) (newId : String) (ts : Int) : ChainState × Block :=
  ({ height := s.height + 1, currentBlockId := newId },
   { id := newId, height := s.height + 1, previous := some s.currentBlockId,
     timestamp := ts })

/-- A sequence of `mine(1)` calls, one per fresh block id, returning the
blocks produced in order. -/
def mineSeq (s : ChainState) (ts : Int) : List String → List Block
  | [] => []
  | newId :: rest =>
    let p := mineStep s newId ts
    p.2 :: mineSeq p.1 ts rest

/-- The predicate `chained prevId h bs` says each block of `bs` extends the chain whose
tip has id `prevId` and height `h`: heights go up by exactly 1 per block and
each block's `previous` is the id of the one before it. -/
def chained : String → Int → List Block → Prop
  | _, _, [] => True
  | prevId, h, b :: rest =>
    b.previous = some prevId ∧ b.height = h + 1 ∧ chained b.id b.height rest

def chainedDec : ∀ p h bs, Decidable (chained p h bs)
  | _, _, [] => .isTrue trivial
  | p, h, b :: rest => by
    unfold chained
    have := chainedDec b.id b.height rest
    exact inferInstance

instance (p : String) (h : Int) (bs : List Block) : Decidable (chained p h bs) :=
  chainedDec p h bs

end ArLocal

open ArLocal

/-- C7: at construction the network state has height −1, blocks 0,
queue_length 0 and the placeholder current block id, independently of every
constructor argument: no chain state is consulted. -/
theorem constructor_initial_network (dirname : String) (port : Nat)
    (dbPath : Option String) (persist : Bool) (fails : ℚ) (now : Int) :
    (mkArLocal dirname port dbPath persist fails now).context.network.height = -1 ∧
    (mkArLocal dirname port dbPath persist fails now).context.network.blocks = 0 ∧
    (mkArLocal dirname port dbPath persist fails now).context.network.queue_length = 0 ∧
    (mkArLocal dirname port dbPath persist fails now).context.network.current = "block_id" ∧
    (mkArLocal dirname port dbPath persist fails now).context.network = initialNetwork := by
  refine ⟨rfl, rfl, rfl, rfl, rfl⟩

lemma adminEnabled_of_ne {env : Option String} (h : env ≠ some "true") :
    adminEnabled env = true :=
  decide_eq_true h

lemma adminEnabled_true_env : adminEnabled (some "true") = false := by decide

lemma admin_handlers_registration :
    ∀ h ∈ adminHandlers,
      (∃ r ∈ routesWith true, r.handler = h) ∧
        ¬ ∃ r ∈ routesWith false, r.handler = h := by decide

lemma public_handlers_registration :
    ∀ h ∈ publicReadHandlers,
      (∃ r ∈ routesWith true, r.handler = h) ∧
        ∃ r ∈ routesWith false, r.handler = h := by decide

lemma routesWith_true_cover :
    ∀ r ∈ routesWith true, r.handler ∈ adminHandlers ∨ r ∈ routesWith false := by
  decide

/-- C1: an admin-tagged handler gets a route exactly when the environment
variable DISABLE_ADMIN_ROUTES is not the string "true" when `start()`
runs. -/
theorem admin_routes_registered_iff (env : Option String) (h : String)
    (hh : h ∈ adminHandlers) :
    (∃ r ∈ registerRoutes env, r.handler = h) ↔ env ≠ some "true" := by
  unfold registerRoutes
  by_cases henv : env = some "true"
  · rw [henv, adminEnabled_true_env]
    exact iff_of_false (admin_handlers_registration h hh).2 (by simp)
  · rw [adminEnabled_of_ne henv]
    exact iff_of_true (admin_handlers_registration h hh).1 henv

theorem admin_routes_registered_iff_witness :
    "mineRoute" ∈ adminHandlers ∧
      ((∃ r ∈ registerRoutes none, r.handler = "mineRoute") ↔
        (none : Option String) ≠ some "true") :=
  ⟨by decide, admin_routes_registered_iff none "mineRoute" (by decide)⟩

/-- C6: every public read handler is registered no matter what
DISABLE_ADMIN_ROUTES holds (even "true"), and the only routes conditional
on the switch are the admin-tagged ones: everything registered under any
environment but missing under "true" carries an admin handler. -/
theorem public_reads_always_registered (env : Option String) (h : String)
    (hh : h ∈ publicReadHandlers) :
    (∃ r ∈ registerRoutes env, r.handler = h) ∧
      ∀ r ∈ registerRoutes env,
        r.handler ∉ adminHandlers → r ∈ registerRoutes (some "true") := by
  have etrue : registerRoutes (some "true") = routesWith false := by
    unfold registerRoutes; rw [adminEnabled_true_env]
  rw [etrue]
  unfold registerRoutes
  cases hb : adminEnabled env
  · exact ⟨(public_handlers_registration h hh).2, fun r hr _ => hr⟩
  · refine ⟨(public_handlers_registration h hh).1, fun r hr hna => ?_⟩
    rcases routesWith_true_cover r hr with h1 | h1
    · exact absurd h1 hna
    · exact h1

theorem public_reads_always_registered_witness :
    "getBalanceRoute" ∈ publicReadHandlers ∧
      ((∃ r ∈ registerRoutes (some "true"), r.handler = "getBalanceRoute") ∧
        ∀ r ∈ registerRoutes (some "true"),
          r.handler ∉ adminHandlers → r ∈ registerRoutes (some "true")) :=
  ⟨by decide, public_reads_always_registered (some "true") "getBalanceRoute" (by decide)⟩

/-- C2: when `start()` runs, `mineGenesisBlock` is called exactly once when
`getLastBlock()` finds nothing and not at all otherwise; in the restored
branch the network state comes from the last block, in the genesis branch it
is blocks = 1, current = the returned id, height = 0. -/
theorem start_genesis_iff (net : NetworkInterface) (lb : Option Block)
    (gid : String) :
    ((startNetwork net lb gid).2 = 1 ↔ lb = none) ∧
    ((startNetwork net lb gid).2 = 0 ↔ ∃ b, lb = some b) ∧
    (∀ b, lb = some b →
      (startNetwork net lb gid).1.blocks = b.height + 1 ∧
      (startNetwork net lb gid).1.current = b.id ∧
      (startNetwork net lb gid).1.height = b.height) ∧
    (lb = none →
      (startNetwork net lb gid).1.blocks = 1 ∧
      (startNetwork net lb gid).1.current = gid ∧
      (startNetwork net lb gid).1.height = 0) := by
  cases lb <;> simp [startNetwork]

theorem start_genesis_iff_witness :
    (startNetwork initialNetwork none "g").2 = 1 ∧
      (startNetwork initialNetwork none "g").1.height = 0 :=
  ⟨(start_genesis_iff initialNetwork none "g").1.mpr rfl,
   ((start_genesis_iff initialNetwork none "g").2.2.2 rfl).2.2⟩

/-- The network invariant of C3: the block count is one more than the
height. -/
def netInvariant (net : NetworkInterface) : Prop :=
  net.blocks = net.height + 1

/-- C3: blocks = height + 1 holds at construction (0 = −1 + 1) and after
both branches of `start()`, and under it block count 0 is exactly the
uninitialized height −1. -/
theorem blocks_eq_height_succ (dirname : String) (port : Nat)
    (dbp : Option String) (persist : Bool) (fails : ℚ) (now : Int)
    (lb : Option Block) (gid : String) :
    netInvariant (mkArLocal dirname port dbp persist fails now).context.network ∧
    netInvariant (startNetwork
      (mkArLocal dirname port dbp persist fails now).context.network lb gid).1 ∧
    (∀ net : NetworkInterface, netInvariant net →
      (net.blocks = 0 ↔ net.height = -1)) := by
  refine ⟨show (0 : Int) = -1 + 1 by decide, ?_, ?_⟩
  · cases lb <;> simp [startNetwork, netInvariant, mkArLocal, initialNetwork]
  · intro net h
    rw [netInvariant] at h
    omega

theorem blocks_eq_height_succ_witness :
    netInvariant (mkArLocal "d" 1984 none false 0 0).context.network ∧
      (initialNetwork.blocks = 0 ↔ initialNetwork.height = -1) :=
  ⟨(blocks_eq_height_succ "d" 1984 none false 0 0 none "g").1,
   (blocks_eq_height_succ "d" 1984 none false 0 0 none "g").2.2 initialNetwork
     (show (0 : Int) = -1 + 1 by decide)⟩

/-- C4 counterexample: the constructor stores `fails / 100` in the context
(app.ts line 106), so a failure rate of 1/2 supplied at construction is NOT
the drop probability handed to the mine-with-failures route: the context
holds 1/200. -/
theorem fails_not_passed_unchanged :
    (mkArLocal "/app" 1984 none false (1 / 2) 0).context.fails ≠ (1 / 2 : ℚ) := by
  show (1 / 2 : ℚ) / 100 ≠ 1 / 2
  norm_num

/-- C4 amended: the drop probability the context exposes to the
mine-with-failures route is the constructor's `fails` argument divided by
100 — the constructor takes a percentage — and it lands in [0, 1] exactly
when the argument is in [0, 100]. -/
theorem fails_scaled_by_hundred (dirname : String) (port : Nat)
    (dbp : Option String) (persist : Bool) (fails : ℚ) (now : Int)
    (h0 : 0 ≤ fails) (h1 : fails ≤ 100) :
    (mkArLocal dirname port dbp persist fails now).context.fails = fails / 100 ∧
    0 ≤ (mkArLocal dirname port dbp persist fails now).context.fails ∧
    (mkArLocal dirname port dbp persist fails now).context.fails ≤ 1 := by
  refine ⟨rfl, ?_, ?_⟩
  · show (0 : ℚ) ≤ fails / 100
    positivity
  · show fails / 100 ≤ (1 : ℚ)
    rw [div_le_one (by norm_num)]
    linarith

theorem fails_scaled_by_hundred_witness :
    (0 : ℚ) ≤ 50 ∧ (50 : ℚ) ≤ 100 ∧
      (mkArLocal "d" 1984 none false 50 0).context.fails = 50 / 100 :=
  ⟨by norm_num, by norm_num,
   (fails_scaled_by_hundred "d" 1984 none false 50 0 (by norm_num) (by norm_num)).1⟩

/-- C5: every sequence of `mine(1)` calls after genesis produces a chain in
which each call raises the height by exactly 1 and each block's `previous`
is the id of the block the previous call produced (the current tip — the
genesis block — for the first call): the produced list is `chained` on the
starting tip, and a single step advances the state height by exactly 1. -/
theorem mine_seq_chained (s : ChainState) (ts : Int) (ids : List String) :
    chained s.currentBlockId s.height (mineSeq s ts ids) ∧
    (∀ newId, (mineStep s newId ts).1.height = s.height + 1 ∧
      (mineStep s newId ts).2.previous = some s.currentBlockId) := by
  refine ⟨?_, fun newId => ⟨rfl, rfl⟩⟩
  induction ids generalizing s with
  | nil => trivial
  | cons newId rest ih =>
    exact ⟨rfl, rfl, ih (mineStep s newId ts).1⟩

/-- C8: the timestamp is captured once at construction and stored in the
shared context; `start()` leaves it untouched, so a genesis block created
before or after `start()` in the same instance carries the same timestamp,
namely the construction time. -/
theorem genesis_timestamp_fixed (dirname : String) (port : Nat)
    (dbp : Option String) (persist : Bool) (fails : ℚ) (now : Int)
    (lb : Option Block) (gid gid2 : String) :
    (mkArLocal dirname port dbp persist fails now).context.timestamp = now ∧
    (startCtx (mkArLocal dirname port dbp persist fails now).context lb gid).timestamp
      = now ∧
    (mineGenesisBlock (mkArLocal dirname port dbp persist fails now).context
        gid).timestamp =
      (mineGenesisBlock
        (startCtx (mkArLocal dirname port dbp persist fails now).context lb gid)
        gid2).timestamp := by
  exact ⟨rfl, rfl, rfl⟩

/-- C9: the listening port is the constructor argument when nonzero and 1984
when it is 0, while the default database path uses the raw argument's
decimal string — so port 0 listens on 1984 yet gets the directory named
"0". -/
theorem port_zero_default_mismatch (dirname : String) (port : Nat)
    (persist : Bool) (fails : ℚ) (now : Int) (hp : port ≠ 0) :
    (mkArLocal dirname port none persist fails now).port = port ∧
    (mkArLocal dirname 0 none persist fails now).port = 1984 ∧
    (mkArLocal dirname 0 none persist fails now).dbPath = dirname ++ "/.db/" ++ "0" ∧
    (mkArLocal dirname port none persist fails now).dbPath
      = dirname ++ "/.db/" ++ toString port := by
  refine ⟨?_, rfl, rfl, rfl⟩
  show effectivePort port = port
  rw [effectivePort, if_neg hp]

theorem port_zero_default_mismatch_witness :
    (3000 : Nat) ≠ 0 ∧ (mkArLocal "/app" 3000 none false 0 0).port = 3000 :=
  ⟨by decide, (port_zero_default_mismatch "/app" 3000 false 0 0 (by decide)).1⟩

/-- C10: with `persist` true neither `startDB()` nor `stop()` (either path)
removes the database directory — `startDB` touches nothing when the
directory exists; with `persist` false `startDB` removes the directory and
recreates it, and `stop` removes it again after shutdown. -/
theorem persist_guards_removal (dbPath p : String) (dirExists : Bool) :
    (FsEffect.removeDir p ∉ startDBEffects true dbPath dirExists ∧
      FsEffect.removeDir p ∉ stopEffects true dbPath dirExists ∧
      FsEffect.removeDir p ∉ stopCloseErrEffects true dbPath dirExists) ∧
    startDBEffects true dbPath true = [] ∧
    startDBEffects false dbPath true
      = [FsEffect.removeDir dbPath, FsEffect.makeDir dbPath] ∧
    stopEffects false dbPath true = [FsEffect.removeDir dbPath] ∧
    stopCloseErrEffects false dbPath true = [FsEffect.removeDir dbPath] := by
  refine ⟨⟨?_, ?_, ?_⟩, ?_, rfl, rfl, rfl⟩ <;>
    cases dirExists <;> simp [startDBEffects, stopEffects, stopCloseErrEffects]
